import Mathlib

/-!
Verification development for the `esp::gfx::RenderCamera` component of
habitat-sim (header: src/esp/gfx/RenderCamera.h).

The header declares a scene-graph-attached rendering camera with a
frustum-culling / object-filtering pipeline over (drawable, transform)
pairs, a draw orchestrator that records the surviving count, projection
configuration, and viewport-point unprojection.  Only the header (with a
few inline member bodies) is available; the out-of-line member bodies
live in RenderCamera.cpp, which is not part of the sources at hand, so
those operations are modelled from the specification (each such
definition says so in its doc comment).

Geometry for the culling pipeline is embedded over exact rationals so
that every definition is executable; the unprojection (which must
produce a unit-length direction) is embedded over the reals.
-/

namespace EspGfx

/-- A 3D point/vector with exact rational coordinates, standing in for
Magnum's `Vector3` in the culling pipeline. -/
structure Vec3 where
  x : Rat
  y : Rat
  z : Rat
deriving DecidableEq, Repr

/-- A homogeneous 4-component row, standing in for a row of Magnum's
`Matrix4` (also used as a frustum plane: coefficients `(a, b, c, d)` of
the half-space `a*x + b*y + c*z + d >= 0`). -/
structure Vec4 where
  x : Rat
  y : Rat
  z : Rat
  w : Rat
deriving DecidableEq, Repr

/-- Componentwise sum of two rows. -/
def Vec4.add (a b : Vec4) : Vec4 :=
  ⟨a.x + b.x, a.y + b.y, a.z + b.z, a.w + b.w⟩

/-- Componentwise difference of two rows. -/
def Vec4.sub (a b : Vec4) : Vec4 :=
  ⟨a.x - b.x, a.y - b.y, a.z - b.z, a.w - b.w⟩

/-- Dot product of two rows. -/
def Vec4.dot (a b : Vec4) : Rat :=
  a.x * b.x + a.y * b.y + a.z * b.z + a.w * b.w

/-- A 4x4 matrix stored by rows (column-vector convention: a point `p`
transforms as `M * (p, 1)`), standing in for Magnum's `Matrix4`. -/
structure Mat4 where
  r0 : Vec4
  r1 : Vec4
  r2 : Vec4
  r3 : Vec4
deriving DecidableEq, Repr

/-- The identity matrix. -/
def identityMat4 : Mat4 :=
  ⟨⟨1, 0, 0, 0⟩, ⟨0, 1, 0, 0⟩, ⟨0, 0, 1, 0⟩, ⟨0, 0, 0, 1⟩⟩

/-- Transpose of a matrix. -/
def Mat4.transpose (m : Mat4) : Mat4 :=
  ⟨⟨m.r0.x, m.r1.x, m.r2.x, m.r3.x⟩,
   ⟨m.r0.y, m.r1.y, m.r2.y, m.r3.y⟩,
   ⟨m.r0.z, m.r1.z, m.r2.z, m.r3.z⟩,
   ⟨m.r0.w, m.r1.w, m.r2.w, m.r3.w⟩⟩

/-- Matrix product (rows of `a` dotted with columns of `b`). -/
def Mat4.mul (a b : Mat4) : Mat4 :=
  let bt := b.transpose
  ⟨⟨a.r0.dot bt.r0, a.r0.dot bt.r1, a.r0.dot bt.r2, a.r0.dot bt.r3⟩,
   ⟨a.r1.dot bt.r0, a.r1.dot bt.r1, a.r1.dot bt.r2, a.r1.dot bt.r3⟩,
   ⟨a.r2.dot bt.r0, a.r2.dot bt.r1, a.r2.dot bt.r2, a.r2.dot bt.r3⟩,
   ⟨a.r3.dot bt.r0, a.r3.dot bt.r1, a.r3.dot bt.r2, a.r3.dot bt.r3⟩⟩

/-- Apply the affine part of a matrix to a point (`p` taken with
homogeneous coordinate 1), as Magnum's `Matrix4::transformPoint` does
for the absolute transforms paired with drawables. -/
def Mat4.transformPoint (m : Mat4) (p : Vec3) : Vec3 :=
  ⟨m.r0.x * p.x + m.r0.y * p.y + m.r0.z * p.z + m.r0.w,
   m.r1.x * p.x + m.r1.y * p.y + m.r1.z * p.z + m.r1.w,
   m.r2.x * p.x + m.r2.y * p.y + m.r2.z * p.z + m.r2.w⟩

/-- Signed value of a point against a frustum plane (nonnegative means
on the inside half-space, negative means outside). -/
def planeEval (pl : Vec4) (p : Vec3) : Rat :=
  pl.x * p.x + pl.y * p.y + pl.z * p.z + pl.w

/-- Modelled from the spec: the six view-frustum half-space planes
derived from the current projection-times-view matrix (spec section 4.3:
"6 half-spaces derived from the current projection × view matrix"); the
extraction in RenderCamera.cpp / Magnum's `Frustum::fromMatrix` is not
in the sources.  The standard row-combination extraction is used:
left/right, bottom/top, near/far. -/
def frustumPlanes (m : Mat4) : List Vec4 :=
  [m.r3.add m.r0, m.r3.sub m.r0,
   m.r3.add m.r1, m.r3.sub m.r1,
   m.r3.add m.r2, m.r3.sub m.r2]

/-- An axis-aligned bounding box (Magnum's `Range3D`). -/
structure Range3D where
  min : Vec3
  max : Vec3
deriving DecidableEq, Repr

/-- The eight corner points of a bounding box. -/
def Range3D.corners (b : Range3D) : List Vec3 :=
  [⟨b.min.x, b.min.y, b.min.z⟩, ⟨b.max.x, b.min.y, b.min.z⟩,
   ⟨b.min.x, b.max.y, b.min.z⟩, ⟨b.max.x, b.max.y, b.min.z⟩,
   ⟨b.min.x, b.min.y, b.max.z⟩, ⟨b.max.x, b.min.y, b.max.z⟩,
   ⟨b.min.x, b.max.y, b.max.z⟩, ⟨b.max.x, b.max.y, b.max.z⟩]

/-- Node-type tag carried by a scene node (esp::scene::SceneNodeType). -/
inductive SceneNodeType where
  | EMPTY
  | SENSOR
  | AGENT
  | CAMERA
  | OBJECT
deriving DecidableEq, Repr

/-- The scene node a drawable (or the camera) is associated with: carries
the node-type tag and the semantic identifier (esp::scene::SceneNode as
the culling pipeline sees it). -/
structure SceneNode where
  nodeType : SceneNodeType
  semanticId : Nat
deriving DecidableEq, Repr

/-- A renderable entity: an identity, an association with a scene node,
and an optional axis-aligned bounding box (absence meaning "unbounded,
always visible"), per spec section 3. -/
structure Drawable where
  id : Nat
  node : SceneNode
  aabb : Option Range3D
deriving DecidableEq, Repr

/-- One entry of the mutable sequence handed to `cull` /
`removeNonObjects`: a drawable paired with its absolute transform
(`std::pair<std::reference_wrapper<Drawable3D>, Magnum::Matrix4>`). -/
abbrev DrawableTransform := Drawable × Mat4

/-- Modelled from the spec: the box-versus-frustum rejection test used by
`RenderCamera::cull` (body in RenderCamera.cpp, not in the sources).
Spec section 4.3: "a box is rejected only if it lies entirely on the
outside of at least one frustum plane".  The box is taken through its
paired absolute transform corner by corner. -/
def boxCulled (planes : List Vec4) (t : Mat4) (b : Range3D) : Bool :=
  planes.any fun pl =>
    (b.corners.map (t.transformPoint ·)).all fun q => decide (planeEval pl q < 0)

/-- Modelled from the spec: the per-pair culling predicate of
`RenderCamera::cull` (body in RenderCamera.cpp, not in the sources).
Spec sections 4.3 and 8: "Drawables with no bounding box are always
retained (treated as unculled)"; a boxed drawable is culled exactly when
`boxCulled` holds for its box and transform. -/
def drawableCulled (planes : List Vec4) (p : DrawableTransform) : Bool :=
  match p.1.aabb with
  | none => false
  | some b => boxCulled planes p.2 b

/-- Rendering flags (RenderCamera.h, `enum class Flag` plus the
`Flags` EnumSet): three independent bits, modelled as three independent
booleans with combination semantics per spec section 4.4. -/
structure Flags where
  frustumCulling : Bool := false
  objectsOnly : Bool := false
  useDrawableIdAsObjectId : Bool := false
deriving DecidableEq, Repr

/-- The default flag set: no bit set (no culling, all node types,
semantic ids used). -/
def Flags.empty : Flags := ⟨false, false, false⟩

/-- The RenderCamera state as the claims see it: the scene node the
camera is attached to, the stored projection matrix and viewport
(MagnumCamera state), the view ("camera") matrix derived from the scene
attachment, and the two members declared in RenderCamera.h lines
208-209 with their default member initializers. -/
structure RenderCamera where
  node : SceneNode
  projectionMatrix : Mat4
  cameraMatrix : Mat4
  viewport : Int × Int
  previousNumVisibleDrawables_ : Nat := 0
  useDrawableIds_ : Bool := false
deriving DecidableEq, Repr

/-- Getter from RenderCamera.h lines 203-205: returns the cached number
of drawables visible after the most recent render pass. -/
def RenderCamera.getPreviousNumVisibleDrawables (c : RenderCamera) : Nat :=
  c.previousNumVisibleDrawables_

/-- Getter from RenderCamera.h line 187: whether the immediately
following rendering pass uses drawable ids as object ids. -/
def RenderCamera.useDrawableIds (c : RenderCamera) : Bool :=
  c.useDrawableIds_

/-- Modelled from the spec: the RenderCamera constructors (bodies in
RenderCamera.cpp, not in the sources) attach the camera to a scene node
and optionally reset the viewing parameters, which determine the view
matrix; we take that resulting view matrix as a parameter, so one
definition covers all three constructors.  The members
`previousNumVisibleDrawables_` and `useDrawableIds_` take the default
member initializers written in RenderCamera.h lines 208-209. -/
def RenderCamera.construct (node : SceneNode) (cameraMatrix : Mat4) : RenderCamera :=
  { node := node
    projectionMatrix := identityMat4
    cameraMatrix := cameraMatrix
    viewport := (0, 0) }

/-- Precomputed-matrix overload `setProjectionMatrix(width, height,
projMat)`, inline in RenderCamera.h lines 116-122: stores `projMat` as
the projection matrix, sets the viewport to `(width, height)` and
returns the camera (C++ returns `*this` for chaining; here the updated
state is the return value).  No other member is touched. -/
def RenderCamera.setProjectionMatrix (c : RenderCamera) (width height : Int)
    (projMat : Mat4) : RenderCamera :=
  { c with projectionMatrix := projMat, viewport := (width, height) }

/-- Error message of the fail-fast parameter check modelled for the
parametric projection setters. -/
def projectionParamError : String := "invalid projection parameters"

/-- Modelled from the spec: the parametric perspective overload
`setProjectionMatrix(width, height, znear, zfar, hfov)` (body in
RenderCamera.cpp, not in the sources).  Spec sections 4.2 and 7: invalid
parameters (`zfar <= znear`, zero or negative width or height,
`hfov <= 0`) "must be rejected explicitly (fail-fast) rather than
silently producing a garbage matrix"; on valid parameters a standard
perspective matrix is stored and the viewport set.  The perspective
matrix construction mathematics is excluded from the spec's scope
(section 1), so the builder is a parameter. -/
def RenderCamera.setProjectionMatrixPersp
    (build : Int → Int → Rat → Rat → Rat → Mat4) (c : RenderCamera)
    (width height : Int) (znear zfar hfov : Rat) :
    Except String RenderCamera :=
  if zfar ≤ znear ∨ width ≤ 0 ∨ height ≤ 0 ∨ hfov ≤ 0 then
    Except.error projectionParamError
  else
    Except.ok (c.setProjectionMatrix width height (build width height znear zfar hfov))

/-- Modelled from the spec: `setOrthoProjectionMatrix(width, height,
znear, zfar, scale)` (body in RenderCamera.cpp, not in the sources).
Spec sections 4.2 and 7: invalid parameters (`zfar <= znear`, zero or
negative dimensions) are rejected explicitly; on valid parameters an
orthographic matrix sized by `scale` is stored and the viewport set.
The matrix construction mathematics is excluded from the spec's scope
(section 1), so the builder is a parameter. -/
def RenderCamera.setOrthoProjectionMatrix
    (build : Int → Int → Rat → Rat → Rat → Mat4) (c : RenderCamera)
    (width height : Int) (znear zfar scale : Rat) :
    Except String RenderCamera :=
  if zfar ≤ znear ∨ width ≤ 0 ∨ height ≤ 0 then
    Except.error projectionParamError
  else
    Except.ok (c.setProjectionMatrix width height (build width height znear zfar scale))

/-- The surviving pairs of a `cull` call: the frustum of the current
projection-times-view matrix is computed and the pairs whose drawable is
culled against it are removed, keeping the survivors in order. -/
def cullSurvivors (viewProj : Mat4) (ps : List DrawableTransform) :
    List DrawableTransform :=
  ps.filter fun p => !drawableCulled (frustumPlanes viewProj) p

/-- Modelled from the spec: `RenderCamera::cull` (body in
RenderCamera.cpp, not in the sources).  Spec section 4.3: removes, in
place, every pair whose drawable's transformed bounding box does not
intersect the frustum of the current projection × view matrix; returns
the count of surviving pairs, the sequence compacted to exactly the
survivors in their original relative order.  The in-place mutation is
embedded by returning the compacted sequence together with the returned
count. -/
def RenderCamera.cull (c : RenderCamera) (ps : List DrawableTransform) :
    List DrawableTransform × Nat :=
  (cullSurvivors (c.projectionMatrix.mul c.cameraMatrix) ps,
   (cullSurvivors (c.projectionMatrix.mul c.cameraMatrix) ps).length)

/-- The surviving pairs of a `removeNonObjects` call: exactly the pairs
whose drawable's node is tagged OBJECT, in order. -/
def removeNonObjectsSurvivors (ps : List DrawableTransform) :
    List DrawableTransform :=
  ps.filter fun p => decide (p.1.node.nodeType = SceneNodeType.OBJECT)

/-- Modelled from the spec: `RenderCamera::removeNonObjects` (body in
RenderCamera.cpp, not in the sources).  Spec sections 4.3 and 8: removes
in place every pair whose drawable's associated node is not tagged
OBJECT, with the same compaction contract as `cull` (returned count
equals the new sequence length, survivor order preserved). -/
def removeNonObjects (ps : List DrawableTransform) :
    List DrawableTransform × Nat :=
  (removeNonObjectsSurvivors ps, (removeNonObjectsSurvivors ps).length)

/-- Modelled from the spec: the pair sequence `draw` ends up issuing
draw calls over.  Spec section 4.4: `draw` builds the (drawable,
absolute-transform) sequence from the group, applies `removeNonObjects`
if `ObjectsOnly` is set, then `cull` if `FrustumCulling` is set.  The
group is embedded directly as the built pair sequence (one entry per
drawable attached under the camera's scene graph, with its absolute
transform). -/
def RenderCamera.drawSurvivors (c : RenderCamera)
    (group : List DrawableTransform) (flags : Flags) :
    List DrawableTransform :=
  let afterObjects := if flags.objectsOnly then (removeNonObjects group).1 else group
  if flags.frustumCulling then (c.cull afterObjects).1 else afterObjects

/-- Modelled from the spec: `RenderCamera::draw` (body in
RenderCamera.cpp, not in the sources).  Spec section 4.4: applies the
requested filters, issues a draw call for every surviving pair, stores
the `UseDrawableIdAsObjectId` bit of this call's flags (one-shot, per
the comment at RenderCamera.h lines 33-40), updates
`previousNumVisibleDrawables_` to the final surviving count and returns
that count.  The GPU submission itself is outside the spec's scope; the
embedding returns the count together with the updated camera state. -/
def RenderCamera.draw (c : RenderCamera) (group : List DrawableTransform)
    (flags : Flags) : Nat × RenderCamera :=
  ((c.drawSurvivors group flags).length,
   { c with
     previousNumVisibleDrawables_ := (c.drawSurvivors group flags).length
     useDrawableIds_ := flags.useDrawableIdAsObjectId })

/-- A 3D vector with real coordinates, used for the unprojection (whose
contract speaks of a unit-length direction, which needs a square
root). -/
structure V3 where
  x : ℝ
  y : ℝ
  z : ℝ

/-- The zero vector (the "failed" direction sentinel). -/
def V3.zero : V3 := ⟨0, 0, 0⟩

/-- Componentwise difference. -/
def V3.sub (a b : V3) : V3 := ⟨a.x - b.x, a.y - b.y, a.z - b.z⟩

/-- Scalar multiple. -/
def V3.smul (t : ℝ) (v : V3) : V3 := ⟨t * v.x, t * v.y, t * v.z⟩

/-- Squared Euclidean length. -/
def V3.normSq (v : V3) : ℝ := v.x ^ 2 + v.y ^ 2 + v.z ^ 2

/-- Euclidean length. -/
noncomputable def V3.norm (v : V3) : ℝ := Real.sqrt v.normSq

/-- Normalization as Magnum's `Vector3::normalized` behaves on exact
reals: the unit vector in the direction of `v`, or zero when `v` is
zero. -/
noncomputable def V3.normalize (v : V3) : V3 :=
  if v.normSq = 0 then V3.zero else V3.smul (1 / v.norm) v

/-- A ray with origin and direction (esp::geo::Ray). -/
structure Ray where
  origin : V3
  direction : V3

/-- The camera state `unproject` reads: the camera's world position
(from its scene node), the stored viewport size, and the current
view-projection transform. -/
structure CameraView where
  worldPosition : V3
  viewport : Int × Int
  viewProj : Matrix (Fin 4) (Fin 4) ℝ

/-- Modelled from the spec: `RenderCamera::unproject` (body in
RenderCamera.cpp, not in the sources).  Spec section 4.5: maps a 2D
viewport pixel to a ray with origin at the camera's current world
position and a unit-length direction through that point, using the
inverse of the current view-projection transform; if the computation is
degenerate (zero viewport size, singular matrix) it returns a
zero-direction ray as a failure sentinel instead of raising an error.
The viewport point is taken to normalized device coordinates, carried
through the inverse view-projection matrix with a homogeneous divide,
and the direction from the camera position to the result is
normalized. -/
noncomputable def CameraView.unproject (c : CameraView) (p : Int × Int) : Ray :=
  if c.viewport.1 = 0 ∨ c.viewport.2 = 0 ∨ c.viewProj.det = 0 then
    { origin := c.worldPosition, direction := V3.zero }
  else
    let ndc : Fin 4 → ℝ := ![2 * (p.1 : ℝ) / (c.viewport.1 : ℝ) - 1,
                            2 * (p.2 : ℝ) / (c.viewport.2 : ℝ) - 1, 1, 1]
    let h := Matrix.mulVec c.viewProj⁻¹ ndc
    let world : V3 :=
      if h 3 = 0 then c.worldPosition
      else ⟨h 0 / h 3, h 1 / h 3, h 2 / h 3⟩
    { origin := c.worldPosition
      direction := V3.normalize (world.sub c.worldPosition) }

/-! Helper lemmas about real-vector normalization. -/

theorem V3.normSq_nonneg (v : V3) : 0 ≤ v.normSq := by
  unfold V3.normSq
  positivity

theorem V3.norm_smul (t : ℝ) (v : V3) : (V3.smul t v).norm = |t| * v.norm := by
  unfold V3.norm V3.smul V3.normSq
  have h : (t * v.x) ^ 2 + (t * v.y) ^ 2 + (t * v.z) ^ 2 =
      t ^ 2 * (v.x ^ 2 + v.y ^ 2 + v.z ^ 2) := by ring
  rw [h, Real.sqrt_mul (sq_nonneg t), Real.sqrt_sq_eq_abs]

theorem V3.norm_pos (v : V3) (h : v.normSq ≠ 0) : 0 < v.norm :=
  Real.sqrt_pos.mpr (lt_of_le_of_ne (V3.normSq_nonneg v) (Ne.symm h))

theorem V3.norm_normalize (v : V3) (h : v.normSq ≠ 0) : (V3.normalize v).norm = 1 := by
  unfold V3.normalize
  rw [if_neg h, V3.norm_smul]
  have hp : 0 < v.norm := V3.norm_pos v h
  rw [abs_of_pos (by positivity : (0 : ℝ) < 1 / v.norm)]
  field_simp

theorem V3.normalize_unit_or_zero (v : V3) :
    (V3.normalize v).norm = 1 ∨ V3.normalize v = V3.zero := by
  by_cases h : v.normSq = 0
  · right
    unfold V3.normalize
    rw [if_pos h]
  · left
    exact V3.norm_normalize v h

/-! Concrete inputs for the witnesses. -/

/-- A concrete scene node for witnesses. -/
def witnessNode : SceneNode := ⟨SceneNodeType.OBJECT, 0⟩

/-- A concrete unbounded drawable for witnesses. -/
def witnessDrawable : Drawable := ⟨0, witnessNode, none⟩

/-- A concrete camera for witnesses. -/
def witnessCamera : RenderCamera := RenderCamera.construct witnessNode identityMat4

/-- A concrete (drawable, transform) pair for witnesses. -/
def witnessPair : DrawableTransform := (witnessDrawable, identityMat4)

/-- A constant matrix builder for the projection-setter witnesses. -/
def constBuild : Int → Int → Rat → Rat → Rat → Mat4 := fun _ _ _ _ _ => identityMat4

/-- A concrete degenerate camera view (zero viewport) for the
unprojection witness. -/
def degenCameraView : CameraView :=
  { worldPosition := V3.zero, viewport := (0, 0), viewProj := 0 }

/-! The claims. -/

/-- C1: for every input sequence of (drawable, transform) pairs, `cull`
never increases the sequence length, the count it returns equals the
length of the compacted sequence, and the compacted sequence is a
subsequence of the input (exactly the survivors, in their original
relative order, with no culled placeholders left). -/
theorem cull_compaction_contract (c : RenderCamera) (ps : List DrawableTransform) :
    (c.cull ps).2 = (c.cull ps).1.length ∧
    (c.cull ps).1.length ≤ ps.length ∧
    List.Sublist (c.cull ps).1 ps := by
  refine ⟨rfl, ?_, ?_⟩
  · exact List.length_filter_le _ _
  · exact List.filter_sublist _

/-- C2: a pair whose drawable has no bounding box is always retained by
`cull`; a pair with a bounding box is retained exactly when the box,
taken through its paired transform, is not entirely outside some
frustum plane of the current projection-times-view matrix (so it is
removed exactly when it lies entirely outside at least one plane). -/
theorem cull_retains_iff (c : RenderCamera) (ps : List DrawableTransform)
    (p : DrawableTransform) (hp : p ∈ ps) :
    p ∈ (c.cull ps).1 ↔
      (p.1.aabb = none ∨
       ∃ b, p.1.aabb = some b ∧
         boxCulled (frustumPlanes (c.projectionMatrix.mul c.cameraMatrix))
           p.2 b = false) := by
  simp only [RenderCamera.cull, cullSurvivors, List.mem_filter]
  cases h : p.1.aabb with
  | none => simp [hp, drawableCulled, h]
  | some b => simp [hp, drawableCulled, h]

/-- Witness for C2: the concrete unbounded pair, member of a singleton
input, is retained. -/
theorem cull_retains_iff_witness :
    witnessPair ∈ [witnessPair] ∧
    (witnessPair ∈ (witnessCamera.cull [witnessPair]).1 ↔
      (witnessPair.1.aabb = none ∨
       ∃ b, witnessPair.1.aabb = some b ∧
         boxCulled (frustumPlanes (witnessCamera.projectionMatrix.mul witnessCamera.cameraMatrix))
           witnessPair.2 b = false)) :=
  ⟨List.mem_singleton.mpr rfl,
   cull_retains_iff witnessCamera [witnessPair] witnessPair (List.mem_singleton.mpr rfl)⟩

/-- C3: `removeNonObjects` returns a count equal to the new sequence
length, the compacted sequence is a subsequence of the input (survivor
order preserved), and it retains exactly the pairs whose drawable's node
is tagged OBJECT. -/
theorem removeNonObjects_spec (ps : List DrawableTransform) :
    (removeNonObjects ps).2 = (removeNonObjects ps).1.length ∧
    List.Sublist (removeNonObjects ps).1 ps ∧
    ∀ p : DrawableTransform,
      p ∈ (removeNonObjects ps).1 ↔
        (p ∈ ps ∧ p.1.node.nodeType = SceneNodeType.OBJECT) := by
  refine ⟨rfl, List.filter_sublist _, fun p => ?_⟩
  simp [removeNonObjects, removeNonObjectsSurvivors, List.mem_filter]

/-- C4: for a fixed camera, applying `removeNonObjects` then `cull`
yields the same surviving pairs, as an unordered set, as applying `cull`
then `removeNonObjects`. -/
theorem cull_removeNonObjects_comm (c : RenderCamera) (ps : List DrawableTransform) :
    ∀ p : DrawableTransform,
      p ∈ (c.cull (removeNonObjects ps).1).1 ↔
        p ∈ (removeNonObjects (c.cull ps).1).1 := by
  intro p
  simp only [RenderCamera.cull, removeNonObjects, cullSurvivors,
    removeNonObjectsSurvivors, List.mem_filter]
  tauto

/-- C5: `draw` returns the number of surviving pairs, sets the member
read by `getPreviousNumVisibleDrawables` to exactly that count
(overwriting whatever an earlier call left there, since the camera state
is arbitrary), and with no flags set it draws every pair of the group
regardless of bounds or node type, reporting the total count. -/
theorem draw_count_spec (c : RenderCamera) (group : List DrawableTransform)
    (flags : Flags) :
    (c.draw group flags).1 = (c.drawSurvivors group flags).length ∧
    (c.draw group flags).2.getPreviousNumVisibleDrawables = (c.draw group flags).1 ∧
    (c.draw group Flags.empty).1 = group.length :=
  ⟨rfl, rfl, rfl⟩

/-- C6: `unproject` always returns a ray whose origin is the camera's
current world position and whose direction is either unit length or the
zero-direction failure sentinel; in the degenerate cases (zero viewport
size or singular view-projection matrix) it returns the zero-direction
sentinel rather than raising an error (the operation is total). -/
theorem unproject_ray_spec (c : CameraView) (p : Int × Int) :
    (c.unproject p).origin = c.worldPosition ∧
    ((c.unproject p).direction.norm = 1 ∨ (c.unproject p).direction = V3.zero) ∧
    ((c.viewport.1 = 0 ∨ c.viewport.2 = 0 ∨ c.viewProj.det = 0) →
      (c.unproject p).direction = V3.zero) := by
  unfold CameraView.unproject
  by_cases h : c.viewport.1 = 0 ∨ c.viewport.2 = 0 ∨ c.viewProj.det = 0
  · rw [if_pos h]
    exact ⟨rfl, Or.inr rfl, fun _ => rfl⟩
  · rw [if_neg h]
    exact ⟨rfl, V3.normalize_unit_or_zero _, fun hd => absurd hd h⟩

/-- Witness for C6: a camera view with zero viewport yields the
zero-direction sentinel. -/
theorem unproject_ray_spec_witness :
    (degenCameraView.viewport.1 = 0 ∨ degenCameraView.viewport.2 = 0 ∨
      degenCameraView.viewProj.det = 0) ∧
    (degenCameraView.unproject (0, 0)).direction = V3.zero :=
  ⟨Or.inl rfl, (unproject_ray_spec degenCameraView (0, 0)).2.2 (Or.inl rfl)⟩

/-- C7: after every `draw` call, `useDrawableIds` reads back exactly the
`UseDrawableIdAsObjectId` bit of that call's flags, regardless of what
any earlier call set (the incoming camera state is arbitrary): the
setting is one-shot, not sticky. -/
theorem draw_useDrawableIds_oneShot (c : RenderCamera)
    (group : List DrawableTransform) (flags : Flags) :
    (c.draw group flags).2.useDrawableIds = flags.useDrawableIdAsObjectId := rfl

/-- C8: the parametric perspective setter rejects every call with
`zfar <= znear`, nonpositive width or height, or `hfov <= 0` with an
explicit error (no projection matrix is stored), and the orthographic
setter likewise rejects `zfar <= znear` and nonpositive dimensions, for
every matrix builder and camera state. -/
theorem projection_setters_fail_fast
    (build buildOrtho : Int → Int → Rat → Rat → Rat → Mat4)
    (c : RenderCamera) (width height : Int) (znear zfar hfov scale : Rat) :
    ((zfar ≤ znear ∨ width ≤ 0 ∨ height ≤ 0 ∨ hfov ≤ 0) →
      c.setProjectionMatrixPersp build width height znear zfar hfov =
        Except.error projectionParamError) ∧
    ((zfar ≤ znear ∨ width ≤ 0 ∨ height ≤ 0) →
      c.setOrthoProjectionMatrix buildOrtho width height znear zfar scale =
        Except.error projectionParamError) := by
  constructor
  · intro h
    simp only [RenderCamera.setProjectionMatrixPersp, if_pos h]
  · intro h
    simp only [RenderCamera.setOrthoProjectionMatrix, if_pos h]

/-- Witness for C8: width 0 (with otherwise sane parameters) is rejected
by both setters. -/
theorem projection_setters_fail_fast_witness :
    ((1 : Rat) ≤ 0 ∨ (0 : Int) ≤ 0 ∨ (1 : Int) ≤ 0 ∨ (1 : Rat) ≤ 0) ∧
    ((1 : Rat) ≤ 0 ∨ (0 : Int) ≤ 0 ∨ (1 : Int) ≤ 0) ∧
    witnessCamera.setProjectionMatrixPersp constBuild 0 1 0 1 1 =
      Except.error projectionParamError ∧
    witnessCamera.setOrthoProjectionMatrix constBuild 0 1 0 1 1 =
      Except.error projectionParamError :=
  ⟨Or.inr (Or.inl le_rfl), Or.inr (Or.inl le_rfl),
   (projection_setters_fail_fast constBuild constBuild witnessCamera 0 1 0 1 1 1).1
     (Or.inr (Or.inl le_rfl)),
   (projection_setters_fail_fast constBuild constBuild witnessCamera 0 1 0 1 1 1).2
     (Or.inr (Or.inl le_rfl))⟩

/-- C9: the precomputed-matrix overload stores the supplied matrix
unconditionally (any matrix is accepted, no validation), sets the
viewport to (width, height), and leaves every other member of the
returned camera — node, view matrix, `previousNumVisibleDrawables_`,
`useDrawableIds_` — unchanged; the returned value is the updated camera
itself (the C++ `*this` for chaining). -/
theorem setProjectionMatrix_precomputed_spec (c : RenderCamera)
    (width height : Int) (projMat : Mat4) :
    (c.setProjectionMatrix width height projMat).projectionMatrix = projMat ∧
    (c.setProjectionMatrix width height projMat).viewport = (width, height) ∧
    (c.setProjectionMatrix width height projMat).previousNumVisibleDrawables_ =
      c.previousNumVisibleDrawables_ ∧
    (c.setProjectionMatrix width height projMat).useDrawableIds_ = c.useDrawableIds_ ∧
    (c.setProjectionMatrix width height projMat).node = c.node ∧
    (c.setProjectionMatrix width height projMat).cameraMatrix = c.cameraMatrix :=
  ⟨rfl, rfl, rfl, rfl, rfl, rfl⟩

/-- C10: a freshly constructed camera (any node, any initial view
matrix, covering all three constructors) reads back 0 from
`getPreviousNumVisibleDrawables` and false from `useDrawableIds`. -/
theorem construct_defaults (node : SceneNode) (view : Mat4) :
    (RenderCamera.construct node view).getPreviousNumVisibleDrawables = 0 ∧
    (RenderCamera.construct node view).useDrawableIds = false :=
  ⟨rfl, rfl⟩

end EspGfx
